import Mathlib

/-!
Verification development for the splitbench repository.

The development shallowly embeds the two source files:

* `src/parse_results.py`  — the diskspd report extractor and CSV aggregator.
  Each `re.search` call is modelled by a dedicated scanner over the character
  list of the source text.  Every pattern used by the script has the shape
  "literal prefix, then character-class repetitions separated by literals",
  where each repetition's character class excludes the character that follows
  it in the pattern; for such patterns Python's backtracking regex semantics
  coincide with "take the maximal run, then require the following literal",
  which is what the scanners below implement.  `re.search`'s leftmost-match
  rule is implemented by `firstMatch`, which tries the pattern at every
  suffix from left to right; a lazy `.*?` under `re.DOTALL` (earliest
  completion of the remainder of the pattern) is the same operation applied
  to the tail of the pattern.

* `src/splitbrain_diskspd_k8s/cli.py` — the orchestrator.  The cluster
  control-plane (every `subprocess.run` of kubectl) is modelled as an
  environment mapping a kubectl argument vector to either captured stdout or
  a `CalledProcessError`'s stderr; the per-worker retrieval and deployment
  code is translated on top of it, with file writes made explicit.
-/

/-! ## Python string primitives -/

/-- Python `\d`: an ASCII decimal digit. -/
def pyIsDigit (c : Char) : Bool :=
  '0' ≤ c && c ≤ '9'

/-- Python `\s` on ASCII text: space, tab, newline, carriage return,
vertical tab, form feed. -/
def pyIsSpace (c : Char) : Bool :=
  c = ' ' || c = '\t' || c = '\n' || c = '\r' || c = '\x0b' || c = '\x0c'

/-- Python `str.strip()` with no arguments: remove leading and trailing
whitespace. -/
def pyStrip (s : String) : String :=
  String.mk ((s.data.dropWhile pyIsSpace).reverse.dropWhile pyIsSpace).reverse

/-- Python `int()` on a string of decimal digits (the only shape the script
ever feeds it, since every argument is a `(\d+)` capture). -/
def pyInt (s : String) : Nat :=
  s.data.foldl (fun a c => a * 10 + (c.toNat - 48)) 0

/-- One step of Python `str.replace`: replace each non-overlapping occurrence
of the (non-empty) pattern, scanning left to right.  `fuel` bounds the
recursion by the length of the scanned text. -/
def pyReplaceAux (pat rep : List Char) : Nat → List Char → List Char
  | _, [] => []
  | 0, cs => cs
  | fuel + 1, c :: cs =>
    if pat.isPrefixOf (c :: cs) then
      rep ++ pyReplaceAux pat rep fuel ((c :: cs).drop pat.length)
    else
      c :: pyReplaceAux pat rep fuel cs

/-- Python `str.replace(pat, rep)` for a non-empty `pat` (the script only
replaces `"node-"` and `".txt"`). -/
def pyReplace (s pat rep : String) : String :=
  if pat.data.isEmpty then s
  else String.mk (pyReplaceAux pat.data rep.data s.data.length s.data)

/-- Python `str.startswith`. -/
def pyStartsWith (s p : String) : Bool :=
  p.data.isPrefixOf s.data

/-- Python `str.endswith`. -/
def pyEndsWith (s p : String) : Bool :=
  p.data.isSuffixOf s.data

/-- Python `str.lower()` on ASCII text. -/
def pyLower (s : String) : String :=
  String.mk (s.data.map Char.toLower)

/-- Python `s.strip().split("\n")[0]`'s second half: the text before the
first newline (`str.split` always returns at least one element). -/
def pySplitHead (s : String) : String :=
  String.mk (s.data.takeWhile (fun c => c ≠ '\n'))

/-! ## Scanner combinators for the regex patterns of `parse_results.py` -/

/-- Consume an exact literal, returning the rest of the input. -/
def lit : List Char → List Char → Option (List Char)
  | [], cs => some cs
  | _ :: _, [] => none
  | p :: ps, c :: cs => if c = p then lit ps cs else none

/-- `\s+`: consume one or more whitespace characters (maximal run). -/
def ws1 (cs : List Char) : Option (List Char) :=
  let r := cs.dropWhile pyIsSpace
  if r.length = cs.length then none else some r

/-- A `(<class>+)` capture group: the maximal non-empty run of characters
satisfying `p`, returned together with the rest of the input. -/
def run1 (p : Char → Bool) (cs : List Char) : Option (List Char × List Char) :=
  match cs.span p with
  | (captured, rest) => if captured.isEmpty then none else some (captured, rest)

/-- `re.search`'s leftmost-match rule: try the pattern matcher at every
suffix, left to right, and return the first success.  Applied to the tail of
a pattern it is also the lazy `.*?` under `re.DOTALL`: the earliest
completion of the remainder of the pattern. -/
def firstMatch {α : Type} (m : List Char → Option α) : List Char → Option α
  | [] => m []
  | c :: cs =>
    match m (c :: cs) with
    | some r => some r
    | none => firstMatch m cs

/-- Like `firstMatch` for matchers that return the unconsumed rest of the
input, additionally returning the suffix at which the match started (used to
reconstruct `group(0)` spans). -/
def firstMatchSuffix (m : List Char → Option (List Char)) :
    List Char → Option (List Char × List Char)
  | [] => (m []).map (fun r => ([], r))
  | c :: cs =>
    match m (c :: cs) with
    | some r => some (c :: cs, r)
    | none => firstMatchSuffix m cs

/-! ## The individual `re.search` calls of `parse_results.py` -/

/-- `re.search(r"Command Line: (.*)", content)`: the remainder of the line
after the first occurrence of the literal (greedy `.` stops at a newline). -/
def searchCommandLine (content : String) : Option String :=
  firstMatch
    (fun cs => (lit "Command Line: ".data cs).map
      (fun rest => String.mk (rest.takeWhile (fun c => c ≠ '\n'))))
    content.data

/-- `re.search(r"processor count: (\d+)", content)`. -/
def searchProcessorCount (content : String) : Option String :=
  firstMatch
    (fun cs => do
      let cs ← lit "processor count: ".data cs
      let (d, _) ← run1 pyIsDigit cs
      pure (String.mk d))
    content.data

/-- `re.search(r"caching options: (.*)", content)`. -/
def searchCachingOptions (content : String) : Option String :=
  firstMatch
    (fun cs => (lit "caching options: ".data cs).map
      (fun rest => String.mk (rest.takeWhile (fun c => c ≠ '\n'))))
    content.data

/-- `re.search(r"duration: (\d+)s", content)`. -/
def searchDuration (content : String) : Option String :=
  firstMatch
    (fun cs => do
      let cs ← lit "duration: ".data cs
      let (d, cs) ← run1 pyIsDigit cs
      let _ ← lit ['s'] cs
      pure (String.mk d))
    content.data

/-- `re.search(r"block size: (\d+)", content)`. -/
def searchBlockSize (content : String) : Option String :=
  firstMatch
    (fun cs => do
      let cs ← lit "block size: ".data cs
      let (d, _) ← run1 pyIsDigit cs
      pure (String.mk d))
    content.data

/-- `re.search(r"number of outstanding I/O operations: (\d+)", content)`. -/
def searchOutstanding (content : String) : Option String :=
  firstMatch
    (fun cs => do
      let cs ← lit "number of outstanding I/O operations: ".data cs
      let (d, _) ← run1 pyIsDigit cs
      pure (String.mk d))
    content.data

/-- `re.search(r"total threads: (\d+)", content)`. -/
def searchThreads (content : String) : Option String :=
  firstMatch
    (fun cs => do
      let cs ← lit "total threads: ".data cs
      let (d, _) ← run1 pyIsDigit cs
      pure (String.mk d))
    content.data

/-- `re.search(r"size: (\d+)B", content)`. -/
def searchFileSize (content : String) : Option String :=
  firstMatch
    (fun cs => do
      let cs ← lit "size: ".data cs
      let (d, cs) ← run1 pyIsDigit cs
      let _ ← lit ['B'] cs
      pure (String.mk d))
    content.data

/-- `re.search(r"using (random|sequential) I/O", content)`. -/
def searchIoType (content : String) : Option String :=
  firstMatch
    (fun cs =>
      match lit "using ".data cs with
      | none => none
      | some cs1 =>
        match lit "random".data cs1 with
        | some cs2 => (lit " I/O".data cs2).map (fun _ => "random")
        | none =>
          match lit "sequential".data cs1 with
          | some cs2 => (lit " I/O".data cs2).map (fun _ => "sequential")
          | none => none)
    content.data

/-- The character class `[\d.]` of the numeric captures. -/
def isNumChar (c : Char) : Bool :=
  pyIsDigit c || c = '.'

/-- `\s+\|\s+`: the column separator between captures. -/
def wsBarWs (cs : List Char) : Option (List Char) :=
  (ws1 cs).bind (fun cs2 => (lit ['|'] cs2).bind ws1)

/-- `([\d.]+)%`: a percentage capture of the CPU pattern. -/
def pctCell (cs : List Char) : Option (List Char × List Char) :=
  match run1 isNumChar cs with
  | none => none
  | some (n, cs2) => (lit ['%'] cs2).map (fun cs3 => (n, cs3))

/-- `(<class>+)\s+\|`: a table-cell capture of the I/O and latency
patterns, including its trailing separator bar. -/
def cellBar (p : Char → Bool) (cs : List Char) : Option (List Char × List Char) :=
  match run1 p cs with
  | none => none
  | some (n, cs2) => ((ws1 cs2).bind (lit ['|'])).map (fun cs3 => (n, cs3))

/-- The tail of the CPU-usage pattern after the lazy `.*?`:
`avg:\s+([\d.]+)%\s+\|\s+([\d.]+)%\s+\|\s+([\d.]+)%\s+\|\s+([\d.]+)%\s+\|\s+([\d.]+)%`. -/
def cpuTail (cs : List Char) : Option (String × String × String × String × String) :=
  match (lit "avg:".data cs).bind ws1 with
  | none => none
  | some cs1 =>
  match pctCell cs1 with
  | none => none
  | some (n1, cs2) =>
  match (wsBarWs cs2).bind pctCell with
  | none => none
  | some (n2, cs3) =>
  match (wsBarWs cs3).bind pctCell with
  | none => none
  | some (n3, cs4) =>
  match (wsBarWs cs4).bind pctCell with
  | none => none
  | some (n4, cs5) =>
  match (wsBarWs cs5).bind pctCell with
  | none => none
  | some (n5, _) =>
    some (String.mk n1, String.mk n2, String.mk n3, String.mk n4, String.mk n5)

/-- `re.search(r"CPU\s+\|\s+Usage.*?avg:\s+...", content, re.DOTALL)`:
five percentage captures from the aggregate line of the CPU section.  The
lazy `.*?` is the inner `firstMatch` over the text after `Usage`. -/
def searchCpu (content : String) :
    Option (String × String × String × String × String) :=
  firstMatch
    (fun cs =>
      match (lit "CPU".data cs).bind wsBarWs with
      | none => none
      | some cs1 =>
        match lit "Usage".data cs1 with
        | none => none
        | some cs2 => firstMatch cpuTail cs2)
    content.data

/-- The tail of the I/O-statistics pattern after the lazy `.*?`:
`total:\s+([\d]+)\s+\|\s+([\d]+)\s+\|\s+([\d.]+)\s+\|\s+([\d.]+)\s+\|\s+([\d.]+)\s+\|`. -/
def ioStatsTail (cs : List Char) : Option (String × String × String × String × String) :=
  match (lit "total:".data cs).bind ws1 with
  | none => none
  | some cs1 =>
  match cellBar pyIsDigit cs1 with
  | none => none
  | some (n1, cs2) =>
  match (ws1 cs2).bind (cellBar pyIsDigit) with
  | none => none
  | some (n2, cs3) =>
  match (ws1 cs3).bind (cellBar isNumChar) with
  | none => none
  | some (n3, cs4) =>
  match (ws1 cs4).bind (cellBar isNumChar) with
  | none => none
  | some (n4, cs5) =>
  match (ws1 cs5).bind (cellBar isNumChar) with
  | none => none
  | some (n5, _) =>
    some (String.mk n1, String.mk n2, String.mk n3, String.mk n4, String.mk n5)

/-- `re.search(rf"{io_type} IO.*?total:\s+...\|", content, re.DOTALL)`:
the five values of one category's "total" row. -/
def searchIoStats (ioKind content : String) :
    Option (String × String × String × String × String) :=
  firstMatch
    (fun cs =>
      match lit (ioKind ++ " IO").data cs with
      | none => none
      | some cs1 => firstMatch ioStatsTail cs1)
    content.data

/-- The matcher for `re.search(r"%-ile.*?max \|.*?\n", content, re.DOTALL)`
at one position: returns the input remaining after the match. -/
def latencySectionRest (cs : List Char) : Option (List Char) :=
  match lit "%-ile".data cs with
  | none => none
  | some cs1 =>
    firstMatch
      (fun cs2 =>
        match lit "max |".data cs2 with
        | none => none
        | some cs3 => firstMatch (fun cs4 => lit ['\n'] cs4) cs3)
      cs1

/-- `re.search(r"%-ile.*?max \|.*?\n", content, re.DOTALL).group(0)`:
the matched span of the latency-percentile table. -/
def searchLatencySection (content : String) : Option String :=
  (firstMatchSuffix latencySectionRest content.data).map
    (fun sr => String.mk (sr.1.take (sr.1.length - sr.2.length)))

/-- `re.search(rf"{percentile}\s+\|\s+([\d.]+)\s+\|", section_text)` for one
percentile row label. -/
def searchPercentileRow (percentile sectionText : String) : Option String :=
  firstMatch
    (fun cs =>
      match (lit percentile.data cs).bind wsBarWs with
      | none => none
      | some cs1 =>
        match cellBar isNumChar cs1 with
        | none => none
        | some (v, _) => some (String.mk v))
    sectionText.data

/-! ## The extraction functions of `parse_results.py` -/

/-- A `BenchmarkRecord`: a Python dict from field name to string value,
modelled as an insertion-ordered association list. -/
abbrev BRecord := List (String × String)

/-- First-key-wins association-list lookup: Python `d[k]` / `k in d`. -/
def lookupR : BRecord → String → Option String
  | [], _ => none
  | (k2, v) :: rest, k => if k2 = k then some v else lookupR rest k

/-- Python `dict.update`: existing keys keep their position and receive the
new value, new keys are appended in the update's order. -/
def pyUpdate (r s : BRecord) : BRecord :=
  r.map (fun kv => (kv.1, (lookupR s kv.1).getD kv.2))
    ++ s.filter (fun kv => (lookupR r kv.1).isNone)

/-- The singleton-or-empty field contribution of one conditional
`params[key] = value` statement. -/
def optEntry (k : String) (o : Option String) : BRecord :=
  match o with
  | some v => [(k, v)]
  | none => []

/-- `parse_command_line`: the capture of `Command Line: (.*)`, or the
placeholder `"N/A"` when the pattern does not match. -/
def parse_command_line (content : String) : String :=
  (searchCommandLine content).getD "N/A"

/-- `parse_system_info`: both fields are always present, with placeholder
`"N/A"` when the corresponding pattern does not match. -/
def parse_system_info (content : String) : BRecord :=
  [("processor_count", (searchProcessorCount content).getD "N/A"),
   ("caching_options", (searchCachingOptions content).getD "N/A")]

/-- Models Python `f"{file_size_bytes / (1024 ** 3):.2f}"`: the byte count
divided by 2^30 and printed with two decimal places.  The true code rounds
the binary-float quotient half-to-even; this model rounds the exact rational
half-up.  The two can differ only within a float ulp of a half-centi
boundary, and every concrete input used below is an exact multiple of 2^30,
where both agree. -/
def formatGb2 (bytes : Nat) : String :=
  let centi := (bytes * 100 + 2 ^ 29) / 2 ^ 30
  toString (centi / 100) ++ "." ++
    (if centi % 100 < 10 then "0" ++ toString (centi % 100) else toString (centi % 100))

/-- `parse_input_parameters`: six independent conditional field insertions,
in source order.  `block_size` is `str(int(capture) // 1024)` and
`file_size_gb` is the two-decimal GiB rendering of the byte count. -/
def parse_input_parameters (content : String) : BRecord :=
  optEntry "duration" (searchDuration content)
    ++ optEntry "block_size" ((searchBlockSize content).map (fun d => toString (pyInt d / 1024)))
    ++ optEntry "outstanding_io" (searchOutstanding content)
    ++ optEntry "threads" (searchThreads content)
    ++ optEntry "file_size_gb" ((searchFileSize content).map (fun d => formatGb2 (pyInt d)))
    ++ optEntry "io_type" (searchIoType content)

/-- `parse_cpu_usage`: all five fields from the single CPU regex, or an
empty mapping when it does not match. -/
def parse_cpu_usage (content : String) : BRecord :=
  match searchCpu content with
  | some (a, b, c, d, e) =>
    [("cpu_total_usage", a), ("cpu_user", b), ("cpu_kernel", c),
     ("cpu_io_wait", d), ("cpu_idle", e)]
  | none => []

/-- `parse_io_stats`: the five fields of one category's regex, keys prefixed
with the lowercased category name, or an empty mapping when it does not
match. -/
def parse_io_stats (content ioKind : String) : BRecord :=
  match searchIoStats ioKind content with
  | some (v1, v2, v3, v4, v5) =>
    [(pyLower ioKind ++ "_bytes", v1), (pyLower ioKind ++ "_ios", v2),
     (pyLower ioKind ++ "_mbps", v3), (pyLower ioKind ++ "_iops", v4),
     (pyLower ioKind ++ "_avg_latency", v5)]
  | none => []

/-- `parse_latency_percentiles`: when the percentile table is found, the
loop over `["min", "50th", "95th", "99th", "max"]` unrolled, each row an
independent conditional insertion. -/
def parse_latency_percentiles (content : String) : BRecord :=
  match searchLatencySection content with
  | some sec =>
    optEntry "latency_min" (searchPercentileRow "min" sec)
      ++ optEntry "latency_50th" (searchPercentileRow "50th" sec)
      ++ optEntry "latency_95th" (searchPercentileRow "95th" sec)
      ++ optEntry "latency_99th" (searchPercentileRow "99th" sec)
      ++ optEntry "latency_max" (searchPercentileRow "max" sec)
  | none => []

/-- The body of `parse_result_file` after the file read: the identity keys,
then each extractor's contribution merged by `dict.update` in source
order. -/
def parseResultContent (content benchmarkId nodeId : String) : BRecord :=
  let result : BRecord := [("benchmark_id", benchmarkId), ("node_id", nodeId)]
  let result := pyUpdate result [("command_line", parse_command_line content)]
  let result := pyUpdate result (parse_system_info content)
  let result := pyUpdate result (parse_input_parameters content)
  let result := pyUpdate result (parse_cpu_usage content)
  let result := pyUpdate result (parse_io_stats content "Total")
  let result := pyUpdate result (parse_io_stats content "Read")
  let result := pyUpdate result (parse_io_stats content "Write")
  let result := pyUpdate result (parse_latency_percentiles content)
  result

/-- The artifact store seen by the second pass: file name to content, with
`none` standing for a file whose read raises. -/
abbrev ArtifactFs := List (String × Option String)

/-- Association lookup in the artifact store. -/
def lookupFs : ArtifactFs → String → Option (Option String)
  | [], _ => none
  | (k2, v) :: rest, k => if k2 = k then some v else lookupFs rest k

/-- `parse_result_file`: read the file, then extract; `none` when the read
raises (the caller's `try`/`except` skips such a worker). -/
def parse_result_file (fs : ArtifactFs) (filePath benchmarkId nodeId : String) :
    Option BRecord :=
  match lookupFs fs filePath with
  | some (some content) => some (parseResultContent content benchmarkId nodeId)
  | _ => none

/-- `process_benchmark_results`: list the `node-*.txt` files, derive each
node id by deleting the `"node-"` and `".txt"` substrings, and parse each
file with the constant benchmark id `"benchmark-01"`, skipping files whose
read raises. -/
def process_benchmark_results (fs : ArtifactFs) : List BRecord :=
  ((fs.map Prod.fst).filter
      (fun f => pyStartsWith f "node-" && pyEndsWith f ".txt")).filterMap
    (fun f =>
      parse_result_file fs f "benchmark-01" (pyReplace (pyReplace f "node-" "") ".txt" ""))

/-- `get_block_size_dir`: the first record's `block_size` suffixed with
`"K"`, or the sentinel directory name. -/
def get_block_size_dir (results : List BRecord) : String :=
  match results with
  | r :: _ =>
    match lookupR r "block_size" with
    | some v => v ++ "K"
    | none => "unknown_block_size"
  | [] => "unknown_block_size"

/-- Python `result["benchmark_id"]` as used by the grouping loop; every
record built by `parse_result_file` carries the key, so the default is
never reached on the script's own data. -/
def benchKey (r : BRecord) : String :=
  (lookupR r "benchmark_id").getD ""

/-- Keys in first-occurrence order, as a `defaultdict` built by an
insertion loop enumerates them. -/
def firstOccurrences (l : List String) : List String :=
  l.foldl (fun acc x => if x ∈ acc then acc else acc ++ [x]) []

/-- The grouping step of `write_benchmark_specific_csvs`: records grouped
by `benchmark_id`, groups in first-occurrence order, each group in
insertion order. -/
def benchmarkGroups (results : List BRecord) : List (String × List BRecord) :=
  (firstOccurrences (results.map benchKey)).map
    (fun id => (id, results.filter (fun r => benchKey r = id)))

/-- `write_benchmark_specific_csvs`, modelled as the list of CSV file names
it writes: nothing on empty input, otherwise one file per non-empty
benchmark group. -/
def write_benchmark_specific_csvs (results : List BRecord) : List String :=
  match results with
  | [] => []
  | _ :: _ =>
    (benchmarkGroups results).filterMap
      (fun g =>
        if g.2.isEmpty then none
        else some ("benchmark_" ++ g.1 ++ "_" ++ get_block_size_dir results ++ ".csv"))

/-! ## The orchestrator of `splitbrain_diskspd_k8s/cli.py`

The cluster control-plane is an environment mapping a kubectl argument
vector to the call's outcome: `Except.ok` carries the captured stdout,
`Except.error` carries the stderr of the raised `CalledProcessError`. -/

/-- One kubectl invocation's outcome. -/
abbrev KubectlEnv := List String → Except String String

/-- `Except.ok` test for a control-plane call. -/
def callOk (r : Except String String) : Bool :=
  match r with
  | Except.ok _ => true
  | Except.error _ => false

/-- The `kubectl logs -l node-test=node-N --tail=500` argument vector of
strategy A in `capture_logs`. -/
def labelLogsArgs (nodeNum : Nat) : List String :=
  ["logs", "-l", "node-test=node-" ++ toString nodeNum, "--tail=500"]

/-- The `kubectl get pods -l node-test=node-N -o name` argument vector of
strategy B in `capture_logs`. -/
def labelPodsArgs (nodeNum : Nat) : List String :=
  ["get", "pods", "-l", "node-test=node-" ++ toString nodeNum, "-o", "name"]

/-- The `kubectl logs <pod> --tail=500` argument vector of strategy B. -/
def podLogsArgs (podName : String) : List String :=
  ["logs", podName, "--tail=500"]

/-- The `kubectl get pods --selector=job-name=diskspd-node-N -o name`
argument vector of the fallback strategy. -/
def jobPodsArgs (nodeNum : Nat) : List String :=
  ["get", "pods", "--selector=job-name=diskspd-node-" ++ toString nodeNum, "-o", "name"]

/-- The `kubectl logs <pod>` argument vector of the fallback strategy
(no `--tail`). -/
def fallbackLogsArgs (podName : String) : List String :=
  ["logs", podName]

/-- The artifact file name `node-{node_num}.txt` (the output directory is
common to all workers and elided). -/
def artifactName (nodeNum : Nat) : String :=
  "node-" ++ toString nodeNum ++ ".txt"

/-- The `try:` block of `capture_logs`: label-selector logs; when their
stripped output is empty, resolve the pod by label and, when a pod is
listed, fetch its logs; the block's result is the text written on its
success, and any `CalledProcessError` (carrying its stderr) escapes to the
`except` handler. -/
def captureTryBlock (env : KubectlEnv) (nodeNum : Nat) : Except String String :=
  match env (labelLogsArgs nodeNum) with
  | Except.error e => Except.error e
  | Except.ok out =>
    if pyStrip out = "" then
      match env (labelPodsArgs nodeNum) with
      | Except.error e => Except.error e
      | Except.ok podList =>
        if pyStrip podList ≠ "" then
          match env (podLogsArgs (pySplitHead (pyStrip podList))) with
          | Except.error e => Except.error e
          | Except.ok out2 => Except.ok out2
        else Except.ok out
    else Except.ok out

/-- The diagnostic placeholder written when both the try block and the
fallback fail, from the two captured stderr texts. -/
def diagnosticText (nodeNum : Nat) (e e2 : String) : String :=
  "Failed to capture logs for node " ++ toString nodeNum ++ ".\nError: " ++ e
    ++ "\nSecond error: " ++ e2

/-- The `except` handler of `capture_logs`, entered with the stderr `e` of
the failed try block: resolve pods by the job-name selector; fetch logs
from the first pod when one is listed; on a second error write the
diagnostic placeholder; when the pod list is empty, fall through without
writing. -/
def captureFallback (env : KubectlEnv) (nodeNum : Nat) (e : String) :
    Option (String × String) :=
  match env (jobPodsArgs nodeNum) with
  | Except.ok podList =>
    if pyStrip podList ≠ "" then
      match env (fallbackLogsArgs (pySplitHead (pyStrip podList))) with
      | Except.ok logs => some (artifactName nodeNum, logs)
      | Except.error e2 => some (artifactName nodeNum, diagnosticText nodeNum e e2)
    else none
  | Except.error e2 => some (artifactName nodeNum, diagnosticText nodeNum e e2)

/-- `capture_logs`: the artifact file (name, content) written for this
worker, or `none` when the function returns without writing one. -/
def capture_logs (env : KubectlEnv) (nodeNum : Nat) : Option (String × String) :=
  match captureTryBlock env nodeNum with
  | Except.ok out => some (artifactName nodeNum, out)
  | Except.error e => captureFallback env nodeNum e

/-- `wait_for_job_completion`: `kubectl wait --for=condition=complete
job/NAME --timeout=Ts`; `True` on success, `False` on any
`CalledProcessError` (timeout included). -/
def wait_for_job_completion (env : KubectlEnv) (jobName : String)
    (timeoutSeconds : Nat) : Bool :=
  callOk (env ["wait", "--for=condition=complete", "job/" ++ jobName,
    "--timeout=" ++ toString timeoutSeconds ++ "s"])

/-- The multi-node job name `diskspd-node-{i}`. -/
def multiJobName (nodeNum : Nat) : String :=
  "diskspd-node-" ++ toString nodeNum

/-- `process_node` of the `multi` command: wait with the default 7200 s
timeout, then capture logs only when the wait succeeded; the value is the
artifact written for this worker, if any. -/
def process_node (env : KubectlEnv) (nodeNum : Nat) : Option (String × String) :=
  if wait_for_job_completion env (multiJobName nodeNum) 7200 then
    capture_logs env nodeNum
  else none

/-- The artifact files produced by `process_all_nodes` for workers
`1..nodes`.  Each worker writes only its own `node-{i}.txt`, so the
concurrent gather is observationally the sequence of per-worker results. -/
def multiArtifacts (env : KubectlEnv) (nodes : Nat) : List (String × String) :=
  (List.range' 1 nodes).filterMap (process_node env)

/-! Deployment and temp-file cleanup (`single` lines 160–166, `multi`
lines 228–234).  A phase is a list of file-system events plus whether the
command aborted via `typer.Exit` (raised by `run_kubectl_command` when the
control-plane rejects the submission, skipping the `os.remove` that
follows it). -/

/-- A file-system event of the deployment phase. -/
inductive FsEvent where
  | write (name : String)
  | remove (name : String)
deriving DecidableEq

/-- A file was written by the phase and never removed afterwards. -/
def fileLeft (evs : List FsEvent) (f : String) : Bool :=
  (FsEvent.write f ∈ evs : Bool) && !(FsEvent.remove f ∈ evs : Bool)

/-- The single-node deployment phase: write `temp_single_node.yaml`, apply
it, remove it; a rejected apply raises `typer.Exit` before the remove. -/
def singleDeployEvents (env : KubectlEnv) : List FsEvent × Bool :=
  match env ["apply", "-f", "temp_single_node.yaml"] with
  | Except.ok _ =>
    ([FsEvent.write "temp_single_node.yaml", FsEvent.remove "temp_single_node.yaml"], false)
  | Except.error _ =>
    ([FsEvent.write "temp_single_node.yaml"], true)

/-- The transient manifest name `temp_node_{i}.yaml` of the multi-node
loop. -/
def tmpNodeName (i : Nat) : String :=
  "temp_node_" ++ toString i ++ ".yaml"

/-- The body of the multi-node deployment loop over the given worker
indices: write, apply, remove per node; a rejected apply raises
`typer.Exit`, abandoning the remove and the rest of the loop. -/
def multiDeployGo (env : KubectlEnv) : List Nat → List FsEvent × Bool
  | [] => ([], false)
  | i :: rest =>
    match env ["apply", "-f", tmpNodeName i] with
    | Except.ok _ =>
      let p := multiDeployGo env rest
      (FsEvent.write (tmpNodeName i) :: FsEvent.remove (tmpNodeName i) :: p.1, p.2)
    | Except.error _ => ([FsEvent.write (tmpNodeName i)], true)

/-- The multi-node deployment phase for workers `1..nodes`. -/
def multiDeployEvents (env : KubectlEnv) (nodes : Nat) : List FsEvent × Bool :=
  multiDeployGo env (List.range' 1 nodes)

/-- Whether the submission of worker `i`'s manifest is accepted. -/
def applyAccepted (env : KubectlEnv) (i : Nat) : Bool :=
  callOk (env ["apply", "-f", tmpNodeName i])

/-! ## Lookup lemmas for the record operations -/

/-- First-defined-wins combination of two optional lookups. -/
def oFirst (a b : Option String) : Option String :=
  match a with
  | some v => some v
  | none => b

@[simp]
theorem oFirst_none (b : Option String) : oFirst none b = b := rfl

@[simp]
theorem oFirst_some (v : String) (b : Option String) : oFirst (some v) b = some v := rfl

@[simp]
theorem oFirst_none_right (a : Option String) : oFirst a none = a := by
  cases a <;> rfl

theorem lookupR_append (a b : BRecord) (k : String) :
    lookupR (a ++ b) k = oFirst (lookupR a k) (lookupR b k) := by
  induction a with
  | nil => simp [lookupR]
  | cons kv rest ih =>
    cases kv with
    | mk k2 v =>
      by_cases h : k2 = k
      · simp [lookupR, h]
      · simp [lookupR, h, ih]

@[simp]
theorem lookupR_optEntry (k0 k : String) (o : Option String) :
    lookupR (optEntry k0 o) k = if k0 = k then o else none := by
  cases o <;> simp [optEntry, lookupR]

theorem lookupR_filter_keyagree (s : BRecord) (p q : String × String → Bool) (k : String)
    (h : ∀ v, p (k, v) = q (k, v)) :
    lookupR (s.filter p) k = lookupR (s.filter q) k := by
  induction s with
  | nil => rfl
  | cons kv rest ih =>
    cases kv with
    | mk k2 v =>
      by_cases hk : k2 = k
      · subst hk
        rw [List.filter_cons, List.filter_cons, h v]
        cases hq : q (k2, v)
        · simp [ih]
        · simp [lookupR]
      · rw [List.filter_cons, List.filter_cons]
        cases hp : p (k2, v) <;> cases hq : q (k2, v) <;>
          simp [lookupR, hk, ih]

theorem lookupR_pyUpdate (r s : BRecord) (k : String) :
    lookupR (pyUpdate r s) k = oFirst (lookupR s k) (lookupR r k) := by
  induction r with
  | nil =>
    simp [pyUpdate, lookupR]
  | cons kv rest ih =>
    cases kv with
    | mk k2 v =>
      by_cases hk : k2 = k
      · subst hk
        simp [pyUpdate, lookupR]
        cases hs : lookupR s k2 <;> simp [lookupR, hs]
      · have hcong : lookupR (s.filter (fun kv => (lookupR ((k2, v) :: rest) kv.1).isNone)) k
            = lookupR (s.filter (fun kv => (lookupR rest kv.1).isNone)) k := by
          apply lookupR_filter_keyagree
          intro w
          simp [lookupR, hk]
        have ih2 : oFirst
            (lookupR (rest.map (fun kv => (kv.1, (lookupR s kv.1).getD kv.2))) k)
            (lookupR (s.filter (fun kv => (lookupR rest kv.1).isNone)) k)
            = oFirst (lookupR s k) (lookupR rest k) := by
          rw [← lookupR_append]
          exact ih
        have step1 : lookupR (pyUpdate ((k2, v) :: rest) s) k
            = lookupR ((rest.map (fun kv => (kv.1, (lookupR s kv.1).getD kv.2)))
                ++ s.filter (fun kv => (lookupR ((k2, v) :: rest) kv.1).isNone)) k := by
          simp [pyUpdate, lookupR, hk]
        rw [step1, lookupR_append, hcong, ih2]
        simp [lookupR, hk]

/-- The record built by `parse_result_file` looks up any key through the
extractor contributions in reverse update order. -/
theorem lookupR_parseResultContent (c b n k : String) :
    lookupR (parseResultContent c b n) k =
      oFirst (lookupR (parse_latency_percentiles c) k)
        (oFirst (lookupR (parse_io_stats c "Write") k)
          (oFirst (lookupR (parse_io_stats c "Read") k)
            (oFirst (lookupR (parse_io_stats c "Total") k)
              (oFirst (lookupR (parse_cpu_usage c) k)
                (oFirst (lookupR (parse_input_parameters c) k)
                  (oFirst (lookupR (parse_system_info c) k)
                    (oFirst (lookupR [("command_line", parse_command_line c)] k)
                      (lookupR [("benchmark_id", b), ("node_id", n)] k)))))))) := by
  unfold parseResultContent
  rw [lookupR_pyUpdate, lookupR_pyUpdate, lookupR_pyUpdate, lookupR_pyUpdate,
    lookupR_pyUpdate, lookupR_pyUpdate, lookupR_pyUpdate, lookupR_pyUpdate]

/-- `parse_input_parameters` owns only its six keys. -/
theorem lookupR_inp_none (c k : String)
    (h : "duration" ≠ k ∧ "block_size" ≠ k ∧ "outstanding_io" ≠ k ∧ "threads" ≠ k ∧
      "file_size_gb" ≠ k ∧ "io_type" ≠ k) :
    lookupR (parse_input_parameters c) k = none := by
  obtain ⟨h1, h2, h3, h4, h5, h6⟩ := h
  simp [parse_input_parameters, lookupR_append, h1, h2, h3, h4, h5, h6]

/-- `parse_system_info` owns only its two keys. -/
theorem lookupR_sys_none (c k : String)
    (h : "processor_count" ≠ k ∧ "caching_options" ≠ k) :
    lookupR (parse_system_info c) k = none := by
  obtain ⟨h1, h2⟩ := h
  simp [parse_system_info, lookupR, h1, h2]

/-- `parse_cpu_usage` owns only its five keys. -/
theorem lookupR_cpu_none (c k : String)
    (h : "cpu_total_usage" ≠ k ∧ "cpu_user" ≠ k ∧ "cpu_kernel" ≠ k ∧
      "cpu_io_wait" ≠ k ∧ "cpu_idle" ≠ k) :
    lookupR (parse_cpu_usage c) k = none := by
  obtain ⟨h1, h2, h3, h4, h5⟩ := h
  unfold parse_cpu_usage
  cases hs : searchCpu c with
  | none => rfl
  | some t =>
    obtain ⟨a, v1, v2, v3, v4⟩ := t
    simp [lookupR, h1, h2, h3, h4, h5]

/-- `parse_io_stats` owns only the five keys of its category prefix. -/
theorem lookupR_io_none (c t k : String)
    (h : pyLower t ++ "_bytes" ≠ k ∧ pyLower t ++ "_ios" ≠ k ∧ pyLower t ++ "_mbps" ≠ k ∧
      pyLower t ++ "_iops" ≠ k ∧ pyLower t ++ "_avg_latency" ≠ k) :
    lookupR (parse_io_stats c t) k = none := by
  obtain ⟨h1, h2, h3, h4, h5⟩ := h
  unfold parse_io_stats
  cases hs : searchIoStats t c with
  | none => rfl
  | some q =>
    obtain ⟨v1, v2, v3, v4, v5⟩ := q
    simp [lookupR, h1, h2, h3, h4, h5]

/-- `parse_latency_percentiles` owns only its five keys. -/
theorem lookupR_lat_none (c k : String)
    (h : "latency_min" ≠ k ∧ "latency_50th" ≠ k ∧ "latency_95th" ≠ k ∧
      "latency_99th" ≠ k ∧ "latency_max" ≠ k) :
    lookupR (parse_latency_percentiles c) k = none := by
  obtain ⟨h1, h2, h3, h4, h5⟩ := h
  unfold parse_latency_percentiles
  cases hs : searchLatencySection c with
  | none => rfl
  | some sec => simp [lookupR_append, h1, h2, h3, h4, h5]

/-- The composed pattern application behind one latency-percentile field:
the row search inside the section match, `none` when either fails. -/
def latencyValue (percentile content : String) : Option String :=
  match searchLatencySection content with
  | some sec => searchPercentileRow percentile sec
  | none => none

/-- C4 (amended): for every source text, each field of the
input-parameter, CPU-usage, I/O-statistics and latency extractors is
absent from the record when its pattern does not match; the command-line,
processor-count and caching-options fields are instead always present and
carry the placeholder `"N/A"` when their pattern does not match. -/
theorem optional_fields_absent_except_placeholders (c b n : String) :
    (searchDuration c = none → lookupR (parseResultContent c b n) "duration" = none) ∧
    (searchBlockSize c = none → lookupR (parseResultContent c b n) "block_size" = none) ∧
    (searchOutstanding c = none → lookupR (parseResultContent c b n) "outstanding_io" = none) ∧
    (searchThreads c = none → lookupR (parseResultContent c b n) "threads" = none) ∧
    (searchFileSize c = none → lookupR (parseResultContent c b n) "file_size_gb" = none) ∧
    (searchIoType c = none → lookupR (parseResultContent c b n) "io_type" = none) ∧
    (searchCpu c = none → lookupR (parseResultContent c b n) "cpu_total_usage" = none) ∧
    (searchCpu c = none → lookupR (parseResultContent c b n) "cpu_user" = none) ∧
    (searchCpu c = none → lookupR (parseResultContent c b n) "cpu_kernel" = none) ∧
    (searchCpu c = none → lookupR (parseResultContent c b n) "cpu_io_wait" = none) ∧
    (searchCpu c = none → lookupR (parseResultContent c b n) "cpu_idle" = none) ∧
    (searchIoStats "Total" c = none → lookupR (parseResultContent c b n) "total_bytes" = none) ∧
    (searchIoStats "Total" c = none → lookupR (parseResultContent c b n) "total_ios" = none) ∧
    (searchIoStats "Total" c = none → lookupR (parseResultContent c b n) "total_mbps" = none) ∧
    (searchIoStats "Total" c = none → lookupR (parseResultContent c b n) "total_iops" = none) ∧
    (searchIoStats "Total" c = none → lookupR (parseResultContent c b n) "total_avg_latency" = none) ∧
    (searchIoStats "Read" c = none → lookupR (parseResultContent c b n) "read_bytes" = none) ∧
    (searchIoStats "Read" c = none → lookupR (parseResultContent c b n) "read_ios" = none) ∧
    (searchIoStats "Read" c = none → lookupR (parseResultContent c b n) "read_mbps" = none) ∧
    (searchIoStats "Read" c = none → lookupR (parseResultContent c b n) "read_iops" = none) ∧
    (searchIoStats "Read" c = none → lookupR (parseResultContent c b n) "read_avg_latency" = none) ∧
    (searchIoStats "Write" c = none → lookupR (parseResultContent c b n) "write_bytes" = none) ∧
    (searchIoStats "Write" c = none → lookupR (parseResultContent c b n) "write_ios" = none) ∧
    (searchIoStats "Write" c = none → lookupR (parseResultContent c b n) "write_mbps" = none) ∧
    (searchIoStats "Write" c = none → lookupR (parseResultContent c b n) "write_iops" = none) ∧
    (searchIoStats "Write" c = none → lookupR (parseResultContent c b n) "write_avg_latency" = none) ∧
    (latencyValue "min" c = none → lookupR (parseResultContent c b n) "latency_min" = none) ∧
    (latencyValue "50th" c = none → lookupR (parseResultContent c b n) "latency_50th" = none) ∧
    (latencyValue "95th" c = none → lookupR (parseResultContent c b n) "latency_95th" = none) ∧
    (latencyValue "99th" c = none → lookupR (parseResultContent c b n) "latency_99th" = none) ∧
    (latencyValue "max" c = none → lookupR (parseResultContent c b n) "latency_max" = none) ∧
    (searchCommandLine c = none → lookupR (parseResultContent c b n) "command_line" = some "N/A") ∧
    (searchProcessorCount c = none → lookupR (parseResultContent c b n) "processor_count" = some "N/A") ∧
    (searchCachingOptions c = none → lookupR (parseResultContent c b n) "caching_options" = some "N/A") := by
  refine ⟨?_, ?_, ?_, ?_, ?_, ?_, ?_, ?_, ?_, ?_, ?_, ?_, ?_, ?_, ?_, ?_, ?_, ?_, ?_, ?_, ?_, ?_, ?_, ?_, ?_, ?_, ?_, ?_, ?_, ?_, ?_, ?_, ?_, ?_⟩
  · intro h
    rw [lookupR_parseResultContent,
      lookupR_lat_none c _ (by decide),
      lookupR_io_none c "Write" _ (by decide),
      lookupR_io_none c "Read" _ (by decide),
      lookupR_io_none c "Total" _ (by decide),
      lookupR_cpu_none c _ (by decide),
      lookupR_sys_none c _ (by decide)]
    simp [parse_input_parameters, lookupR_append, lookupR, h]
  · intro h
    rw [lookupR_parseResultContent,
      lookupR_lat_none c _ (by decide),
      lookupR_io_none c "Write" _ (by decide),
      lookupR_io_none c "Read" _ (by decide),
      lookupR_io_none c "Total" _ (by decide),
      lookupR_cpu_none c _ (by decide),
      lookupR_sys_none c _ (by decide)]
    simp [parse_input_parameters, lookupR_append, lookupR, h]
  · intro h
    rw [lookupR_parseResultContent,
      lookupR_lat_none c _ (by decide),
      lookupR_io_none c "Write" _ (by decide),
      lookupR_io_none c "Read" _ (by decide),
      lookupR_io_none c "Total" _ (by decide),
      lookupR_cpu_none c _ (by decide),
      lookupR_sys_none c _ (by decide)]
    simp [parse_input_parameters, lookupR_append, lookupR, h]
  · intro h
    rw [lookupR_parseResultContent,
      lookupR_lat_none c _ (by decide),
      lookupR_io_none c "Write" _ (by decide),
      lookupR_io_none c "Read" _ (by decide),
      lookupR_io_none c "Total" _ (by decide),
      lookupR_cpu_none c _ (by decide),
      lookupR_sys_none c _ (by decide)]
    simp [parse_input_parameters, lookupR_append, lookupR, h]
  · intro h
    rw [lookupR_parseResultContent,
      lookupR_lat_none c _ (by decide),
      lookupR_io_none c "Write" _ (by decide),
      lookupR_io_none c "Read" _ (by decide),
      lookupR_io_none c "Total" _ (by decide),
      lookupR_cpu_none c _ (by decide),
      lookupR_sys_none c _ (by decide)]
    simp [parse_input_parameters, lookupR_append, lookupR, h]
  · intro h
    rw [lookupR_parseResultContent,
      lookupR_lat_none c _ (by decide),
      lookupR_io_none c "Write" _ (by decide),
      lookupR_io_none c "Read" _ (by decide),
      lookupR_io_none c "Total" _ (by decide),
      lookupR_cpu_none c _ (by decide),
      lookupR_sys_none c _ (by decide)]
    simp [parse_input_parameters, lookupR_append, lookupR, h]
  · intro h
    rw [lookupR_parseResultContent,
      lookupR_lat_none c _ (by decide),
      lookupR_io_none c "Write" _ (by decide),
      lookupR_io_none c "Read" _ (by decide),
      lookupR_io_none c "Total" _ (by decide),
      lookupR_inp_none c _ (by decide),
      lookupR_sys_none c _ (by decide)]
    simp [parse_cpu_usage, lookupR, h]
  · intro h
    rw [lookupR_parseResultContent,
      lookupR_lat_none c _ (by decide),
      lookupR_io_none c "Write" _ (by decide),
      lookupR_io_none c "Read" _ (by decide),
      lookupR_io_none c "Total" _ (by decide),
      lookupR_inp_none c _ (by decide),
      lookupR_sys_none c _ (by decide)]
    simp [parse_cpu_usage, lookupR, h]
  · intro h
    rw [lookupR_parseResultContent,
      lookupR_lat_none c _ (by decide),
      lookupR_io_none c "Write" _ (by decide),
      lookupR_io_none c "Read" _ (by decide),
      lookupR_io_none c "Total" _ (by decide),
      lookupR_inp_none c _ (by decide),
      lookupR_sys_none c _ (by decide)]
    simp [parse_cpu_usage, lookupR, h]
  · intro h
    rw [lookupR_parseResultContent,
      lookupR_lat_none c _ (by decide),
      lookupR_io_none c "Write" _ (by decide),
      lookupR_io_none c "Read" _ (by decide),
      lookupR_io_none c "Total" _ (by decide),
      lookupR_inp_none c _ (by decide),
      lookupR_sys_none c _ (by decide)]
    simp [parse_cpu_usage, lookupR, h]
  · intro h
    rw [lookupR_parseResultContent,
      lookupR_lat_none c _ (by decide),
      lookupR_io_none c "Write" _ (by decide),
      lookupR_io_none c "Read" _ (by decide),
      lookupR_io_none c "Total" _ (by decide),
      lookupR_inp_none c _ (by decide),
      lookupR_sys_none c _ (by decide)]
    simp [parse_cpu_usage, lookupR, h]
  · intro h
    rw [lookupR_parseResultContent,
      lookupR_lat_none c _ (by decide),
      lookupR_io_none c "Write" _ (by decide),
      lookupR_io_none c "Read" _ (by decide),
      lookupR_cpu_none c _ (by decide),
      lookupR_inp_none c _ (by decide),
      lookupR_sys_none c _ (by decide)]
    simp [parse_io_stats, lookupR, h]
  · intro h
    rw [lookupR_parseResultContent,
      lookupR_lat_none c _ (by decide),
      lookupR_io_none c "Write" _ (by decide),
      lookupR_io_none c "Read" _ (by decide),
      lookupR_cpu_none c _ (by decide),
      lookupR_inp_none c _ (by decide),
      lookupR_sys_none c _ (by decide)]
    simp [parse_io_stats, lookupR, h]
  · intro h
    rw [lookupR_parseResultContent,
      lookupR_lat_none c _ (by decide),
      lookupR_io_none c "Write" _ (by decide),
      lookupR_io_none c "Read" _ (by decide),
      lookupR_cpu_none c _ (by decide),
      lookupR_inp_none c _ (by decide),
      lookupR_sys_none c _ (by decide)]
    simp [parse_io_stats, lookupR, h]
  · intro h
    rw [lookupR_parseResultContent,
      lookupR_lat_none c _ (by decide),
      lookupR_io_none c "Write" _ (by decide),
      lookupR_io_none c "Read" _ (by decide),
      lookupR_cpu_none c _ (by decide),
      lookupR_inp_none c _ (by decide),
      lookupR_sys_none c _ (by decide)]
    simp [parse_io_stats, lookupR, h]
  · intro h
    rw [lookupR_parseResultContent,
      lookupR_lat_none c _ (by decide),
      lookupR_io_none c "Write" _ (by decide),
      lookupR_io_none c "Read" _ (by decide),
      lookupR_cpu_none c _ (by decide),
      lookupR_inp_none c _ (by decide),
      lookupR_sys_none c _ (by decide)]
    simp [parse_io_stats, lookupR, h]
  · intro h
    rw [lookupR_parseResultContent,
      lookupR_lat_none c _ (by decide),
      lookupR_io_none c "Write" _ (by decide),
      lookupR_io_none c "Total" _ (by decide),
      lookupR_cpu_none c _ (by decide),
      lookupR_inp_none c _ (by decide),
      lookupR_sys_none c _ (by decide)]
    simp [parse_io_stats, lookupR, h]
  · intro h
    rw [lookupR_parseResultContent,
      lookupR_lat_none c _ (by decide),
      lookupR_io_none c "Write" _ (by decide),
      lookupR_io_none c "Total" _ (by decide),
      lookupR_cpu_none c _ (by decide),
      lookupR_inp_none c _ (by decide),
      lookupR_sys_none c _ (by decide)]
    simp [parse_io_stats, lookupR, h]
  · intro h
    rw [lookupR_parseResultContent,
      lookupR_lat_none c _ (by decide),
      lookupR_io_none c "Write" _ (by decide),
      lookupR_io_none c "Total" _ (by decide),
      lookupR_cpu_none c _ (by decide),
      lookupR_inp_none c _ (by decide),
      lookupR_sys_none c _ (by decide)]
    simp [parse_io_stats, lookupR, h]
  · intro h
    rw [lookupR_parseResultContent,
      lookupR_lat_none c _ (by decide),
      lookupR_io_none c "Write" _ (by decide),
      lookupR_io_none c "Total" _ (by decide),
      lookupR_cpu_none c _ (by decide),
      lookupR_inp_none c _ (by decide),
      lookupR_sys_none c _ (by decide)]
    simp [parse_io_stats, lookupR, h]
  · intro h
    rw [lookupR_parseResultContent,
      lookupR_lat_none c _ (by decide),
      lookupR_io_none c "Write" _ (by decide),
      lookupR_io_none c "Total" _ (by decide),
      lookupR_cpu_none c _ (by decide),
      lookupR_inp_none c _ (by decide),
      lookupR_sys_none c _ (by decide)]
    simp [parse_io_stats, lookupR, h]
  · intro h
    rw [lookupR_parseResultContent,
      lookupR_lat_none c _ (by decide),
      lookupR_io_none c "Read" _ (by decide),
      lookupR_io_none c "Total" _ (by decide),
      lookupR_cpu_none c _ (by decide),
      lookupR_inp_none c _ (by decide),
      lookupR_sys_none c _ (by decide)]
    simp [parse_io_stats, lookupR, h]
  · intro h
    rw [lookupR_parseResultContent,
      lookupR_lat_none c _ (by decide),
      lookupR_io_none c "Read" _ (by decide),
      lookupR_io_none c "Total" _ (by decide),
      lookupR_cpu_none c _ (by decide),
      lookupR_inp_none c _ (by decide),
      lookupR_sys_none c _ (by decide)]
    simp [parse_io_stats, lookupR, h]
  · intro h
    rw [lookupR_parseResultContent,
      lookupR_lat_none c _ (by decide),
      lookupR_io_none c "Read" _ (by decide),
      lookupR_io_none c "Total" _ (by decide),
      lookupR_cpu_none c _ (by decide),
      lookupR_inp_none c _ (by decide),
      lookupR_sys_none c _ (by decide)]
    simp [parse_io_stats, lookupR, h]
  · intro h
    rw [lookupR_parseResultContent,
      lookupR_lat_none c _ (by decide),
      lookupR_io_none c "Read" _ (by decide),
      lookupR_io_none c "Total" _ (by decide),
      lookupR_cpu_none c _ (by decide),
      lookupR_inp_none c _ (by decide),
      lookupR_sys_none c _ (by decide)]
    simp [parse_io_stats, lookupR, h]
  · intro h
    rw [lookupR_parseResultContent,
      lookupR_lat_none c _ (by decide),
      lookupR_io_none c "Read" _ (by decide),
      lookupR_io_none c "Total" _ (by decide),
      lookupR_cpu_none c _ (by decide),
      lookupR_inp_none c _ (by decide),
      lookupR_sys_none c _ (by decide)]
    simp [parse_io_stats, lookupR, h]
  · intro h
    rw [lookupR_parseResultContent,
      lookupR_io_none c "Write" _ (by decide),
      lookupR_io_none c "Read" _ (by decide),
      lookupR_io_none c "Total" _ (by decide),
      lookupR_cpu_none c _ (by decide),
      lookupR_inp_none c _ (by decide),
      lookupR_sys_none c _ (by decide)]
    cases hsec : searchLatencySection c with
    | none => simp [parse_latency_percentiles, hsec, lookupR]
    | some sec =>
      unfold latencyValue at h
      rw [hsec] at h
      simp only [] at h
      simp [parse_latency_percentiles, hsec, lookupR_append, lookupR, h]
  · intro h
    rw [lookupR_parseResultContent,
      lookupR_io_none c "Write" _ (by decide),
      lookupR_io_none c "Read" _ (by decide),
      lookupR_io_none c "Total" _ (by decide),
      lookupR_cpu_none c _ (by decide),
      lookupR_inp_none c _ (by decide),
      lookupR_sys_none c _ (by decide)]
    cases hsec : searchLatencySection c with
    | none => simp [parse_latency_percentiles, hsec, lookupR]
    | some sec =>
      unfold latencyValue at h
      rw [hsec] at h
      simp only [] at h
      simp [parse_latency_percentiles, hsec, lookupR_append, lookupR, h]
  · intro h
    rw [lookupR_parseResultContent,
      lookupR_io_none c "Write" _ (by decide),
      lookupR_io_none c "Read" _ (by decide),
      lookupR_io_none c "Total" _ (by decide),
      lookupR_cpu_none c _ (by decide),
      lookupR_inp_none c _ (by decide),
      lookupR_sys_none c _ (by decide)]
    cases hsec : searchLatencySection c with
    | none => simp [parse_latency_percentiles, hsec, lookupR]
    | some sec =>
      unfold latencyValue at h
      rw [hsec] at h
      simp only [] at h
      simp [parse_latency_percentiles, hsec, lookupR_append, lookupR, h]
  · intro h
    rw [lookupR_parseResultContent,
      lookupR_io_none c "Write" _ (by decide),
      lookupR_io_none c "Read" _ (by decide),
      lookupR_io_none c "Total" _ (by decide),
      lookupR_cpu_none c _ (by decide),
      lookupR_inp_none c _ (by decide),
      lookupR_sys_none c _ (by decide)]
    cases hsec : searchLatencySection c with
    | none => simp [parse_latency_percentiles, hsec, lookupR]
    | some sec =>
      unfold latencyValue at h
      rw [hsec] at h
      simp only [] at h
      simp [parse_latency_percentiles, hsec, lookupR_append, lookupR, h]
  · intro h
    rw [lookupR_parseResultContent,
      lookupR_io_none c "Write" _ (by decide),
      lookupR_io_none c "Read" _ (by decide),
      lookupR_io_none c "Total" _ (by decide),
      lookupR_cpu_none c _ (by decide),
      lookupR_inp_none c _ (by decide),
      lookupR_sys_none c _ (by decide)]
    cases hsec : searchLatencySection c with
    | none => simp [parse_latency_percentiles, hsec, lookupR]
    | some sec =>
      unfold latencyValue at h
      rw [hsec] at h
      simp only [] at h
      simp [parse_latency_percentiles, hsec, lookupR_append, lookupR, h]
  · intro h
    rw [lookupR_parseResultContent,
      lookupR_lat_none c _ (by decide),
      lookupR_io_none c "Write" _ (by decide),
      lookupR_io_none c "Read" _ (by decide),
      lookupR_io_none c "Total" _ (by decide),
      lookupR_cpu_none c _ (by decide),
      lookupR_inp_none c _ (by decide),
      lookupR_sys_none c _ (by decide)]
    simp [parse_command_line, lookupR, h]
  · intro h
    rw [lookupR_parseResultContent,
      lookupR_lat_none c _ (by decide),
      lookupR_io_none c "Write" _ (by decide),
      lookupR_io_none c "Read" _ (by decide),
      lookupR_io_none c "Total" _ (by decide),
      lookupR_inp_none c _ (by decide),
      lookupR_cpu_none c _ (by decide)]
    simp [parse_system_info, lookupR, h]
  · intro h
    rw [lookupR_parseResultContent,
      lookupR_lat_none c _ (by decide),
      lookupR_io_none c "Write" _ (by decide),
      lookupR_io_none c "Read" _ (by decide),
      lookupR_io_none c "Total" _ (by decide),
      lookupR_inp_none c _ (by decide),
      lookupR_cpu_none c _ (by decide)]
    simp [parse_system_info, lookupR, h]

/-- C4 (counterexample): on an empty source text no pattern matches, yet
the resulting record still carries `command_line` (and the two system-info
fields) with the placeholder value `"N/A"` — refuting the claim that a
non-identity field whose pattern does not match is absent and never given a
placeholder. -/
theorem placeholder_fields_counterexample :
    searchCommandLine "" = none ∧
    searchProcessorCount "" = none ∧
    searchCachingOptions "" = none ∧
    lookupR (parseResultContent "" "benchmark-01" "1") "command_line" = some "N/A" ∧
    lookupR (parseResultContent "" "benchmark-01" "1") "processor_count" = some "N/A" ∧
    lookupR (parseResultContent "" "benchmark-01" "1") "caching_options" = some "N/A" := by
  decide

/-- C4 (witness): the amended theorem instantiated on the empty source
text, discharging a hypothesis of each kind. -/
theorem optional_fields_absent_witness :
    lookupR (parseResultContent "" "bench" "0") "duration" = none ∧
    lookupR (parseResultContent "" "bench" "0") "cpu_idle" = none ∧
    lookupR (parseResultContent "" "bench" "0") "command_line" = some "N/A" := by
  refine ⟨?_, ?_, ?_⟩
  · exact (optional_fields_absent_except_placeholders "" "bench" "0").1 (by decide)
  · exact (optional_fields_absent_except_placeholders "" "bench" "0").2.2.2.2.2.2.2.2.2.2.1
      (by decide)
  · exact (optional_fields_absent_except_placeholders "" "bench" "0").2.2.2.2.2.2.2.2.2.2.2.2.2.2.2.2.2.2.2.2.2.2.2.2.2.2.2.2.2.2.2.1
      (by decide)

/-- C5 (amended): the CPU-usage extractor and each I/O-statistics category
extractor are all-or-nothing — each contributes its full five-field set or
nothing — and a report carrying only 4 of the 5 required CPU percentages
yields no cpu fields at all.  (The input-parameter and latency extractors
are per-field independent; see the counterexample.) -/
theorem cpu_io_all_or_nothing (content : String) :
    (parse_cpu_usage content = [] ∨
      ∃ a b c d e, parse_cpu_usage content =
        [("cpu_total_usage", a), ("cpu_user", b), ("cpu_kernel", c),
         ("cpu_io_wait", d), ("cpu_idle", e)]) ∧
    (∀ t : String, parse_io_stats content t = [] ∨
      ∃ v1 v2 v3 v4 v5, parse_io_stats content t =
        [(pyLower t ++ "_bytes", v1), (pyLower t ++ "_ios", v2), (pyLower t ++ "_mbps", v3),
         (pyLower t ++ "_iops", v4), (pyLower t ++ "_avg_latency", v5)]) ∧
    parse_cpu_usage
      "CPU |  Usage |  User  |  Kernel |  IO Wait | Idle\n   avg:   12.34% |   5.00% |   3.00% |   1.00%\n"
      = [] := by
  refine ⟨?_, ?_, by decide⟩
  · cases h : searchCpu content with
    | none =>
      left
      simp [parse_cpu_usage, h]
    | some q =>
      right
      obtain ⟨a, b, c, d, e⟩ := q
      exact ⟨a, b, c, d, e, by simp [parse_cpu_usage, h]⟩
  · intro t
    cases h : searchIoStats t content with
    | none =>
      left
      simp [parse_io_stats, h]
    | some q =>
      right
      obtain ⟨v1, v2, v3, v4, v5⟩ := q
      exact ⟨v1, v2, v3, v4, v5, by simp [parse_io_stats, h]⟩

/-- C5 (counterexample): the input-parameter extraction function
contributes exactly one of its six fields on a text declaring only a
duration — refuting "each extraction function contributes either all of
its fields or none". -/
theorem input_parameters_partial :
    parse_input_parameters "duration: 30s" = [("duration", "30")] ∧
    lookupR (parse_input_parameters "duration: 30s") "block_size" = none := by
  decide

/-- C6: block size input 4096 bytes yields field value "4" (KiB by
integer division by 1024); file size input 10737418240 bytes yields
"10.00" (GiB with two decimal places). -/
theorem normalization_cases :
    lookupR (parse_input_parameters "block size: 4096\n") "block_size" = some "4" ∧
    lookupR (parse_input_parameters "size: 10737418240B\n") "file_size_gb" = some "10.00" := by
  decide

/-- C7 (counterexample): when the first record has no block-size field
the subdirectory name is the sentinel "unknown_block_size", which is not
the string "unknown". -/
theorem block_size_dir_cex :
    get_block_size_dir [[("benchmark_id", "benchmark-01"), ("node_id", "1")]]
      = "unknown_block_size" ∧
    "unknown_block_size" ≠ "unknown" := by
  decide

/-- C7 (amended): for every non-empty record list, the block-size
subdirectory name is the first record's block-size value suffixed with
"K", and the sentinel "unknown_block_size" when that field is absent. -/
theorem get_block_size_dir_amended (r : BRecord) (rs : List BRecord) :
    (∀ v, lookupR r "block_size" = some v → get_block_size_dir (r :: rs) = v ++ "K") ∧
    (lookupR r "block_size" = none → get_block_size_dir (r :: rs) = "unknown_block_size") := by
  constructor
  · intro v h
    simp [get_block_size_dir, h]
  · intro h
    simp [get_block_size_dir, h]

/-- C7 (witness): the amended theorem at a concrete record with
block-size "4" gives directory "4K". -/
theorem gbsd_witness : get_block_size_dir [[("block_size", "4")]] = "4K" :=
  (get_block_size_dir_amended [("block_size", "4")] []).1 "4" (by decide)

/-- C8: extraction is deterministic and idempotent — two runs of
`parse_result_file` on the same artifact store, path and identity keys
yield identical records. -/
theorem extraction_deterministic (fs : ArtifactFs) (p b n : String) (r1 r2 : BRecord)
    (h1 : parse_result_file fs p b n = some r1)
    (h2 : parse_result_file fs p b n = some r2) :
    r1 = r2 := by
  rw [h1] at h2
  exact Option.some.inj h2

/-- C8 (witness): the determinism theorem at a concrete one-file
artifact store. -/
theorem extraction_deterministic_witness :
    parseResultContent "" "b" "1" = parseResultContent "" "b" "1" :=
  extraction_deterministic [("f", some "")] "f" "b" "1"
    (parseResultContent "" "b" "1") (parseResultContent "" "b" "1") (by decide) (by decide)

/-- Every record built by the extraction pass answers `benchmark_id`
with the caller-injected identity value. -/
theorem lookupR_record_benchmark_id (c b n : String) :
    lookupR (parseResultContent c b n) "benchmark_id" = some b := by
  rw [lookupR_parseResultContent,
    lookupR_lat_none c _ (by decide),
    lookupR_io_none c "Write" _ (by decide),
    lookupR_io_none c "Read" _ (by decide),
    lookupR_io_none c "Total" _ (by decide),
    lookupR_cpu_none c _ (by decide),
    lookupR_inp_none c _ (by decide),
    lookupR_sys_none c _ (by decide)]
  simp [lookupR]

theorem foldl_insert_const (l : List String) (cst : String) (h : ∀ x ∈ l, x = cst) :
    l.foldl (fun acc x => if x ∈ acc then acc else acc ++ [x]) [cst] = [cst] := by
  induction l with
  | nil => rfl
  | cons x rest ih =>
    have hx : x = cst := h x (by simp)
    subst hx
    simp only [List.foldl_cons, List.mem_singleton, if_pos rfl]
    exact ih (fun y hy => h y (by simp [hy]))

theorem firstOccurrences_const (l : List String) (cst : String) (hne : l ≠ [])
    (h : ∀ x ∈ l, x = cst) : firstOccurrences l = [cst] := by
  cases l with
  | nil => exact absurd rfl hne
  | cons x rest =>
    have hx : x = cst := h x (by simp)
    subst hx
    unfold firstOccurrences
    simp only [List.foldl_cons]
    have : (if x ∈ ([] : List String) then ([] : List String) else [] ++ [x]) = [x] := by simp
    rw [this]
    exact foldl_insert_const rest x (fun y hy => h y (by simp [hy]))

theorem mem_process_results (fs : ArtifactFs) (r : BRecord)
    (hr : r ∈ process_benchmark_results fs) :
    ∃ c n, r = parseResultContent c "benchmark-01" n := by
  simp only [process_benchmark_results, List.mem_filterMap] at hr
  obtain ⟨f, hf, hpf⟩ := hr
  unfold parse_result_file at hpf
  cases hl : lookupFs fs f with
  | none => rw [hl] at hpf; simp at hpf
  | some oc =>
    cases oc with
    | none => rw [hl] at hpf; simp at hpf
    | some c =>
      rw [hl] at hpf
      simp only [Option.some.injEq] at hpf
      exact ⟨c, pyReplace (pyReplace f "node-" "") ".txt" "", hpf.symm⟩

/-- C10: every record of the results-processing pass carries the
constant benchmark id "benchmark-01"; grouping therefore yields exactly
one group holding all records, and exactly one per-benchmark CSV file is
written. -/
theorem single_benchmark_group (fs : ArtifactFs)
    (hne : process_benchmark_results fs ≠ []) :
    (∀ r ∈ process_benchmark_results fs, lookupR r "benchmark_id" = some "benchmark-01") ∧
    benchmarkGroups (process_benchmark_results fs)
      = [("benchmark-01", process_benchmark_results fs)] ∧
    write_benchmark_specific_csvs (process_benchmark_results fs)
      = ["benchmark_" ++ "benchmark-01" ++ "_"
          ++ get_block_size_dir (process_benchmark_results fs) ++ ".csv"] := by
  have hall : ∀ r ∈ process_benchmark_results fs, lookupR r "benchmark_id" = some "benchmark-01" := by
    intro r hr
    obtain ⟨c, n, rfl⟩ := mem_process_results fs r hr
    exact lookupR_record_benchmark_id c "benchmark-01" n
  have hkeys : ∀ r ∈ process_benchmark_results fs, benchKey r = "benchmark-01" := by
    intro r hr
    simp [benchKey, hall r hr]
  have hocc : firstOccurrences ((process_benchmark_results fs).map benchKey)
      = ["benchmark-01"] := by
    apply firstOccurrences_const
    · simp [hne]
    · intro x hx
      simp only [List.mem_map] at hx
      obtain ⟨r, hr, rfl⟩ := hx
      exact hkeys r hr
  have hfilter : (process_benchmark_results fs).filter
      (fun r => benchKey r = "benchmark-01") = process_benchmark_results fs := by
    rw [List.filter_eq_self]
    intro r hr
    simp [hkeys r hr]
  have hgroups : benchmarkGroups (process_benchmark_results fs)
      = [("benchmark-01", process_benchmark_results fs)] := by
    unfold benchmarkGroups
    rw [hocc]
    simp [hfilter]
  refine ⟨hall, hgroups, ?_⟩
  cases hres : process_benchmark_results fs with
  | nil => exact absurd hres hne
  | cons r0 rest =>
    rw [hres] at hgroups
    show (benchmarkGroups (r0 :: rest)).filterMap
        (fun g =>
          if g.2.isEmpty then none
          else some ("benchmark_" ++ g.1 ++ "_" ++ get_block_size_dir (r0 :: rest) ++ ".csv"))
      = ["benchmark_" ++ "benchmark-01" ++ "_" ++ get_block_size_dir (r0 :: rest) ++ ".csv"]
    rw [hgroups]
    simp

/-- C10 (witness): the grouping theorem at a concrete one-artifact
store. -/
theorem single_benchmark_group_witness :
    write_benchmark_specific_csvs (process_benchmark_results [("node-1.txt", some "")])
      = ["benchmark_" ++ "benchmark-01" ++ "_"
          ++ get_block_size_dir (process_benchmark_results [("node-1.txt", some "")]) ++ ".csv"] :=
  (single_benchmark_group [("node-1.txt", some "")] (by decide)).2.2

/-- C9: when the direct label-based log request errors and the job-name
selector pod query succeeds with an empty pod list, `capture_logs` returns
without writing any artifact file — neither log content nor a diagnostic
placeholder. -/
theorem empty_fallback_no_artifact (env : KubectlEnv) (n : Nat) (e podsOut : String)
    (hlogs : env (labelLogsArgs n) = Except.error e)
    (hpods : env (jobPodsArgs n) = Except.ok podsOut)
    (hempty : pyStrip podsOut = "") :
    capture_logs env n = none := by
  unfold capture_logs captureTryBlock captureFallback
  rw [hlogs, hpods]
  simp [hempty]

/-- A control plane on which worker 1's label-based log request errors
and the job-name pod query returns whitespace only. -/
def c9Env : KubectlEnv := fun cmd =>
  if cmd = labelLogsArgs 1 then Except.error "pods not found"
  else if cmd = jobPodsArgs 1 then Except.ok " \n"
  else Except.ok "ok"

/-- C9 (witness): the empty-fallback theorem at a concrete control
plane. -/
theorem empty_fallback_no_artifact_witness : capture_logs c9Env 1 = none :=
  empty_fallback_no_artifact c9Env 1 "pods not found" " \n" rfl rfl (by decide)

/-- A control plane on which worker 1's wait call fails (times out) and
every other call succeeds. -/
def timeoutEnv : KubectlEnv := fun cmd =>
  if cmd = ["wait", "--for=condition=complete", "job/diskspd-node-1", "--timeout=7200s"]
  then Except.error "timed out waiting for the condition"
  else Except.ok "ok"

/-- C2 (counterexample): a worker whose wait step times out does not
proceed to log retrieval — `process_node` yields no artifact at all,
refuting the claim that retrieval still runs and still produces one. -/
theorem timeout_skips_retrieval_counterexample :
    wait_for_job_completion timeoutEnv (multiJobName 1) 7200 = false ∧
    process_node timeoutEnv 1 = none ∧
    multiArtifacts timeoutEnv 1 = [] := by
  decide

/-- C2 (amended): a worker whose wait step reports failure (timeout
included) is skipped entirely — `process_node` performs no log retrieval
and produces no artifact for it. -/
theorem timeout_worker_skipped (env : KubectlEnv) (n : Nat)
    (h : wait_for_job_completion env (multiJobName n) 7200 = false) :
    process_node env n = none := by
  unfold process_node
  rw [h]
  simp

/-- C2 (witness): the skip theorem at a concrete control plane whose
wait call fails. -/
theorem timeout_worker_skipped_witness :
    process_node (fun _ => Except.error "cluster unreachable") 1 = none :=
  timeout_worker_skipped (fun _ => Except.error "cluster unreachable") 1 (by decide)

/-- A control plane on which worker 1's wait succeeds, its label-based
log request errors, and the job-name pod query returns an empty list. -/
def emptyFallbackEnv : KubectlEnv := fun cmd =>
  if cmd = labelLogsArgs 1 then Except.error "pod terminated"
  else if cmd = jobPodsArgs 1 then Except.ok ""
  else Except.ok "ok"

/-- C1 (counterexample): with one worker whose wait completes but whose
retrieval hits the errored-logs/empty-fallback-pod-list branch, the
retrieval phase produces zero artifact files, not one per worker. -/
theorem artifact_per_worker_counterexample :
    wait_for_job_completion emptyFallbackEnv (multiJobName 1) 7200 = true ∧
    multiArtifacts emptyFallbackEnv 1 = [] ∧
    (multiArtifacts emptyFallbackEnv 1).length ≠ 1 := by
  decide

/-- The silent branch of `capture_logs`: the try block failed and the
job-name pod query succeeded with an empty (stripped) pod list. -/
def emptyFallbackSkip (env : KubectlEnv) (n : Nat) : Bool :=
  match captureTryBlock env n with
  | Except.ok _ => false
  | Except.error _ =>
    match env (jobPodsArgs n) with
    | Except.ok s => pyStrip s = ""
    | Except.error _ => false

theorem capture_logs_isSome (env : KubectlEnv) (n : Nat) :
    (capture_logs env n).isSome = !(emptyFallbackSkip env n) := by
  unfold capture_logs emptyFallbackSkip captureFallback
  cases h1 : captureTryBlock env n with
  | ok out => simp
  | error e =>
    cases h2 : env (jobPodsArgs n) with
    | ok s =>
      by_cases h3 : pyStrip s = ""
      · simp [h3]
      · cases h4 : env (fallbackLogsArgs (pySplitHead (pyStrip s))) <;> simp [h3, h4]
    | error e2 => simp

theorem process_node_isSome (env : KubectlEnv) (n : Nat) :
    (process_node env n).isSome =
      (wait_for_job_completion env (multiJobName n) 7200 && !(emptyFallbackSkip env n)) := by
  unfold process_node
  cases h : wait_for_job_completion env (multiJobName n) 7200 <;> simp [h, capture_logs_isSome]

theorem length_filterMap_eq {α β : Type} (f : α → Option β) (l : List α) :
    (l.filterMap f).length = (l.filter (fun a => (f a).isSome)).length := by
  induction l with
  | nil => rfl
  | cons a t ih => cases h : f a <;> simp [List.filterMap_cons, h, ih]

/-- C1 (amended): the number of artifact files equals the number of
workers whose wait completed and whose retrieval did not hit the silent
errored-logs/empty-fallback-pod-list branch; every other combination of
strategy successes and control-plane failures yields exactly one artifact
for its worker. -/
theorem artifact_count_amended (env : KubectlEnv) (nodes : Nat) :
    (multiArtifacts env nodes).length =
      ((List.range' 1 nodes).filter
        (fun n => wait_for_job_completion env (multiJobName n) 7200
          && !(emptyFallbackSkip env n))).length := by
  unfold multiArtifacts
  rw [length_filterMap_eq]
  congr 1
  apply List.filter_congr
  intro n _
  exact process_node_isSome env n

/-- A control plane that rejects every submission. -/
def rejectingEnv : KubectlEnv := fun _ => Except.error "error validating manifest"

/-- C3 (counterexample): when the control plane rejects the submission,
the rendered template file is left on disk in both single-node and
multi-node mode (the tool exits before the delete), refuting deletion
"regardless of submission outcome". -/
theorem temp_file_cleanup_counterexample :
    fileLeft (singleDeployEvents rejectingEnv).1 "temp_single_node.yaml" = true ∧
    (singleDeployEvents rejectingEnv).2 = true ∧
    fileLeft (multiDeployEvents rejectingEnv 3).1 (tmpNodeName 1) = true := by
  decide

theorem multiDeployGo_spec (env : KubectlEnv) (l : List Nat) :
    multiDeployGo env l =
      ((l.takeWhile (applyAccepted env)).flatMap
          (fun i => [FsEvent.write (tmpNodeName i), FsEvent.remove (tmpNodeName i)])
        ++ (match l.dropWhile (applyAccepted env) with
            | [] => []
            | j :: _ => [FsEvent.write (tmpNodeName j)]),
       !(l.dropWhile (applyAccepted env)).isEmpty) := by
  induction l with
  | nil => simp [multiDeployGo]
  | cons i rest ih =>
    unfold multiDeployGo
    cases h : env ["apply", "-f", tmpNodeName i] with
    | ok s =>
      have hacc : applyAccepted env i = true := by simp [applyAccepted, callOk, h]
      simp [List.takeWhile_cons, List.dropWhile_cons, hacc, ih]
    | error e =>
      have hacc : applyAccepted env i = false := by simp [applyAccepted, callOk, h]
      simp [List.takeWhile_cons, List.dropWhile_cons, hacc]

/-- C3 (amended): a deployment's transient template file is deleted
exactly when the control plane accepts the submission; a rejected
submission aborts the command with the rejected node's template file left
on disk, and later nodes' files are never created. -/
theorem temp_file_cleanup_amended (env : KubectlEnv) :
    (callOk (env ["apply", "-f", "temp_single_node.yaml"]) = true →
      singleDeployEvents env =
        ([FsEvent.write "temp_single_node.yaml", FsEvent.remove "temp_single_node.yaml"],
         false)) ∧
    (callOk (env ["apply", "-f", "temp_single_node.yaml"]) = false →
      singleDeployEvents env = ([FsEvent.write "temp_single_node.yaml"], true)) ∧
    (∀ nodes : Nat,
      multiDeployEvents env nodes =
        (((List.range' 1 nodes).takeWhile (applyAccepted env)).flatMap
            (fun i => [FsEvent.write (tmpNodeName i), FsEvent.remove (tmpNodeName i)])
          ++ (match (List.range' 1 nodes).dropWhile (applyAccepted env) with
              | [] => []
              | j :: _ => [FsEvent.write (tmpNodeName j)]),
         !((List.range' 1 nodes).dropWhile (applyAccepted env)).isEmpty)) := by
  refine ⟨?_, ?_, ?_⟩
  · intro h
    unfold singleDeployEvents
    cases hc : env ["apply", "-f", "temp_single_node.yaml"] with
    | ok s => rfl
    | error e => simp [callOk, hc] at h
  · intro h
    unfold singleDeployEvents
    cases hc : env ["apply", "-f", "temp_single_node.yaml"] with
    | ok s => simp [callOk, hc] at h
    | error e => rfl
  · intro nodes
    exact multiDeployGo_spec env (List.range' 1 nodes)

/-- C3 (witness): the cleanup theorem at an accepting control plane. -/
theorem temp_file_cleanup_witness :
    singleDeployEvents (fun _ => Except.ok "deployed")
      = ([FsEvent.write "temp_single_node.yaml", FsEvent.remove "temp_single_node.yaml"],
         false) :=
  (temp_file_cleanup_amended (fun _ => Except.ok "deployed")).1 (by decide)
